import Mathlib

/-!
Verification of the quantitative engine of the Ammlytics position tracker
(`liquidity_positions.py`).

The Python code does all monetary arithmetic with `decimal.Decimal` at
precision 50.  We embed those computations as exact rational arithmetic
over `ℚ`: each `Decimal` intermediate is modelled by its exact value, and
the 50-significant-digit rounding (relative perturbation below `10 ^ (-48)`)
is abstracted away.  Square roots and half-integer powers of `Decimal`
values are irrational in general, so the functions that consume them take
the (already computed) square-root values as explicit parameters, exactly
where the Python code computes `x.sqrt()` or `Decimal(1.0001) ** (t / 2)`
inline.

External effects (RPC reads, log scans, database access) are modelled as
`Option`-valued inputs; a caught-and-defaulted failure is `none`.
-/

/-- Python `int(d)` on a `Decimal`: truncation toward zero. -/
def pyInt (q : ℚ) : ℤ :=
  if q < 0 then -⌊-q⌋ else ⌊q⌋

/-- Python truthiness of an optional `Decimal` price (`if price:`):
`None` and `Decimal(0)` are falsy, every other value is truthy. -/
def priceTruthy (o : Option ℚ) : Bool :=
  match o with
  | none => false
  | some p => if p = 0 then false else true

/-- The exact value of Python `Decimal(1.0001)` (`liquidity_positions.py`
line 404).  The literal `1.0001` is an IEEE-754 double, namely the nearest
number of the form `m / 2 ^ 52` with `2 ^ 52 ≤ m < 2 ^ 53` to `10001 / 10000`;
converting it to `Decimal` is exact.  So the seed constant of all tick/price
conversions is `4504049987333233 / 2 ^ 52`, which is strictly smaller than
`10001 / 10000` (the conversion is NOT the decimal number 1.0001). -/
def decimalFloat_1_0001 : ℚ := 4504049987333233 / 2 ^ 52

/-- `tick_to_price(tick, decimals0, decimals1)` (lines 402-406):
`Decimal(1.0001) ** Decimal(tick) * Decimal(10) ** (decimals0 - decimals1)`,
in exact arithmetic. -/
def tick_to_price (tick decimals0 decimals1 : ℤ) : ℚ :=
  decimalFloat_1_0001 ^ tick * 10 ^ (decimals0 - decimals1)

/-- `calculate_token_amounts(liquidity, current_sqrt_price, lower_tick, upper_tick)`
(lines 408-423).  The source derives
`sqrt_price_lower = Decimal(1.0001) ** (Decimal(lower_tick) / 2)` and likewise
for the upper bound; those half-integer powers are irrational for odd ticks, so
this embedding takes the two derived square-root prices as parameters.
`int(...)` is Python truncation toward zero (`pyInt`); the untouched leg keeps
its initial integer `0`. -/
def calculate_token_amounts (liquidity current_sqrt_price sqrt_price_lower sqrt_price_upper : ℚ) :
    ℤ × ℤ :=
  if current_sqrt_price ≤ sqrt_price_lower then
    (pyInt (liquidity * ((sqrt_price_upper - sqrt_price_lower) / (sqrt_price_lower * sqrt_price_upper))), 0)
  else if sqrt_price_upper ≤ current_sqrt_price then
    (0, pyInt (liquidity * (sqrt_price_upper - sqrt_price_lower)))
  else
    (pyInt (liquidity * ((sqrt_price_upper - current_sqrt_price) / (current_sqrt_price * sqrt_price_upper))),
     pyInt (liquidity * (current_sqrt_price - sqrt_price_lower)))

/-- The three-case hypothetical amount decomposition used twice inside
`calculate_il_percentage` (lines 492-511), at liquidity `L`, price `p`,
bounds `p_lower`/`p_upper`, with the corresponding `Decimal.sqrt()` values
`s`, `s_lower`, `s_upper` passed in. -/
def il_amounts (L p p_lower p_upper s s_lower s_upper : ℚ) : ℚ × ℚ :=
  if p ≤ p_lower then
    (L * (s_upper - s_lower) / (s_lower * s_upper), 0)
  else if p_upper ≤ p then
    (0, L * (s_upper - s_lower))
  else
    (L * (s_upper - s) / (s * s_upper), L * (s - s_lower))

/-- `calculate_il_percentage(entry_price, target_price, lower_price, upper_price)`
(lines 470-523).  The four `Decimal.sqrt()` results (of entry, target, lower and
upper price) are taken as the parameters `s_entry`, `s_target`, `s_lower`,
`s_upper`, since they are irrational in general. -/
def calculate_il_percentage (p_entry p_target p_lower p_upper s_entry s_target s_lower s_upper : ℚ) :
    ℚ :=
  if p_target = p_entry ∨ p_upper ≤ p_lower then 0
  else
    let L : ℚ := 1
    let entry := il_amounts L p_entry p_lower p_upper s_entry s_lower s_upper
    let target := il_amounts L p_target p_lower p_upper s_target s_lower s_upper
    let hodl_value := entry.1 * p_target + entry.2
    let lp_value := target.1 * p_target + target.2
    if hodl_value = 0 then 0 else |lp_value / hodl_value - 1|

/-- The ordered non-zero duration components of `format_timedelta`
(lines 540-562): greedy decomposition of a minute count into
years (365 d) / months (30 d) / weeks / days / hours / minutes,
each rendered as value-plus-suffix, zero components omitted. -/
def duration_components (total_minutes : ℕ) : List String :=
  let years := total_minutes / (365 * 24 * 60)
  let r1 := total_minutes % (365 * 24 * 60)
  let months := r1 / (30 * 24 * 60)
  let r2 := r1 % (30 * 24 * 60)
  let weeks := r2 / (7 * 24 * 60)
  let r3 := r2 % (7 * 24 * 60)
  let days_part := r3 / (24 * 60)
  let r4 := r3 % (24 * 60)
  let hours_part := r4 / 60
  let minutes_part := r4 % 60
  (if 0 < years then [toString years ++ ("y")] else []) ++
  (if 0 < months then [toString months ++ ("mo")] else []) ++
  (if 0 < weeks then [toString weeks ++ ("w")] else []) ++
  (if 0 < days_part then [toString days_part ++ ("d")] else []) ++
  (if 0 < hours_part then [toString hours_part ++ ("h")] else []) ++
  (if 0 < minutes_part then [toString minutes_part ++ ("m")] else [])

/-- `format_timedelta(days)` (lines 525-570).  A `None`, non-`Decimal` or
non-finite argument (all of which the source maps to the string before any
arithmetic) is modelled as `none`. -/
def format_timedelta (days : Option ℚ) : String :=
  match days with
  | none => ("N/A")
  | some d =>
    if d < 0 then ("Met")
    else
      let total_minutes := (pyInt (d * 24 * 60)).toNat
      if total_minutes = 0 then ("<1m")
      else
        let display_parts := (duration_components total_minutes).take 3
        if display_parts.isEmpty then ("N/A")
        else String.intercalate (" ") display_parts

/-- The APR / projected-earnings block (lines 751-769).  Inputs:
whether the baseline date carries the " (Current)" suffix (line 756),
the elapsed days derived from `datetime.strptime` (`none` models a parse
failure, caught at line 767 with APR forced to 0), the position USD value and
the accumulated reward USD.  Output
`(annualized_apr, days_active, daily_projected, annual_projected)`. -/
def yield_projection (snapshot_is_current : Bool) (elapsed_days : Option ℚ)
    (position_usd_value total_rewards_usd : ℚ) : ℚ × ℚ × ℚ × ℚ :=
  if snapshot_is_current then (0, 0, 0, 0)
  else
    match elapsed_days with
    | none => (0, 0, 0, 0)
    | some d =>
      if 0 < position_usd_value ∧ 0 < d then
        let annualized_apr := (total_rewards_usd / position_usd_value) / (d / 365) * 100
        let annual := position_usd_value * (annualized_apr / 100)
        let daily := annual / 365
        (annualized_apr, d, daily, annual)
      else (0, d, 0, 0)

/-- One emission reward of a position (lines 731-749): token symbol and
decimals from `get_token_info`, raw earned amount, and the optional price
from the symbol-keyed price cache. -/
structure RewardEntry where
  symbol : String
  decimals : ℕ
  amount : ℤ
  price : Option ℚ
deriving DecidableEq

/-- `usd_value` of one reward (lines 735-739): `0` unless the cached price is
truthy, else raw amount scaled by decimals times price. -/
def reward_usd_value (r : RewardEntry) : ℚ :=
  match r.price with
  | none => 0
  | some p => if p = 0 then 0 else ((r.amount : ℚ) / 10 ^ r.decimals) * p

/-- The USD value a reward contributes, both to the displayed per-token value
(line 748) and to the running total (lines 740-743): the xSHADOW variant is
halved, every other token is credited in full. -/
def reward_credited (r : RewardEntry) : ℚ :=
  if r.symbol = ("xSHADOW") then reward_usd_value r / 2 else reward_usd_value r

/-- `total_rewards_usd` accumulation loop (lines 730-743). -/
def total_rewards_usd_calc (rs : List RewardEntry) : ℚ :=
  rs.foldl (fun acc r => acc + reward_credited r) 0

/-- The per-reward display rows (lines 745-749), keeping the USD value as the
exact rational behind the formatted string. -/
def rewards_display (rs : List RewardEntry) : List (String × ℚ) :=
  rs.map fun r => (r.symbol, reward_credited r)

/-- `daily_rewards_usd` (lines 791-794): stays at its default `0` unless the
APR is positive. -/
def daily_rewards_usd_calc (annualized_apr position_usd_value : ℚ) : ℚ :=
  if 0 < annualized_apr then position_usd_value * (annualized_apr / 100) / 365 else 0

/-- `days_to_breakeven` for one bound (lines 789-797): defaults to `0`, and is
`il_usd / daily_rewards_usd` only when the APR, the daily reward and the IL
are all positive. -/
def days_to_breakeven_calc (annualized_apr position_usd_value il_usd : ℚ) : ℚ :=
  if 0 < annualized_apr then
    if 0 < daily_rewards_usd_calc annualized_apr position_usd_value then
      if 0 < il_usd then il_usd / daily_rewards_usd_calc annualized_apr position_usd_value
      else 0
    else 0
  else 0

/-- The breakeven display string for one bound (lines 810-822): defaults to
"N/A"; for a positive breakeven time it renders the total time and the
remaining time `days_to_breakeven - days_active`, the latter collapsing to
"Met" when already elapsed. -/
def breakeven_display (days_to_breakeven days_active : ℚ) : String :=
  if 0 < days_to_breakeven then
    let total_time_str := format_timedelta (some days_to_breakeven)
    let remaining_time_str := format_timedelta (some (days_to_breakeven - days_active))
    if remaining_time_str ≠ ("Met") then total_time_str ++ (" (") ++ remaining_time_str ++ (" left)")
    else total_time_str ++ (" (Met)")
  else ("N/A")

/-- `position_usd_value` (lines 679-697): generic sum of the two priced legs,
falling back to the stablecoin-anchored recomputation when that sum is zero
and one leg is USDC. -/
def position_value_calc (amount0 amount1 : ℤ) (decimals0 decimals1 : ℕ)
    (price0 price1 : Option ℚ) (token0_is_usdc token1_is_usdc : Bool) : ℚ :=
  let a0 : ℚ := (amount0 : ℚ) / 10 ^ decimals0
  let a1 : ℚ := (amount1 : ℚ) / 10 ^ decimals1
  let v := (if priceTruthy price0 then a0 * price0.getD 0 else 0) +
           (if priceTruthy price1 then a1 * price1.getD 0 else 0)
  if v = 0 then
    if token1_is_usdc ∧ priceTruthy price0 then a0 * price0.getD 0 + a1
    else if token0_is_usdc ∧ priceTruthy price1 then a1 * price1.getD 0 + a0
    else 0
  else v

/-- The impermanent-loss data block of one position report (lines 845-868),
keeping the rational values behind the formatted strings, plus the two
breakeven display strings and the position-age string. -/
structure ILData where
  il_usd_lower : ℚ
  il_perc_lower : ℚ
  breakeven_lower : String
  fees_vs_il_lower : ℚ
  il_usd_upper : ℚ
  il_perc_upper : ℚ
  breakeven_upper : String
  fees_vs_il_upper : ℚ
  il_usd_current : ℚ
  il_perc_current : ℚ
  net_gain_loss : ℚ
  position_age : String

/-- One entry of the returned `positions` list (lines 878-903), restricted to
the quantitative fields the claims are about; pure display formatting
(balance strings, comma formatting) is omitted.  `il_data = none` models the
empty dict `{}`. -/
structure PosReport where
  status : String
  position_usd_value : ℚ
  total_rewards_usd : ℚ
  annualized_apr : ℚ
  daily_projected_usd_earnings : ℚ
  annual_projected_usd_earnings : ℚ
  price_range_percentage : ℚ
  perc_to_lower : ℚ
  perc_to_upper : ℚ
  il_data : Option ILData

/-- The inputs the per-position loop body (lines 632-903) receives from the
chain, the database and the price caches, after the baseline snapshot has been
resolved (lines 651-677).  `pool_read` is the `get_pool_info` result (line
641), `none` when it failed and the position is skipped.  `sqrt_price_lower`
and `sqrt_price_upper` are the half-integer powers
`Decimal(1.0001) ** (tick / 2)` computed inside `calculate_token_amounts`.
`initial_price_val` is the parsed snapshot price, `0` when missing or
unparsable (lines 706-711); `elapsed_days` is `none` when `strptime` fails.
(When the mint event is found but the historical pool read fails, the source
never creates the cache entry and the save call at line 677 raises `KeyError`;
that path is outside this record, which assumes a resolved snapshot.) -/
structure PosEval where
  tickLower : ℤ
  tickUpper : ℤ
  liquidity : ℤ
  token0_decimals : ℕ
  token1_decimals : ℕ
  pool_read : Option (ℚ × ℤ)
  sqrt_price_lower : ℚ
  sqrt_price_upper : ℚ
  price0 : Option ℚ
  price1 : Option ℚ
  token0_is_usdc : Bool
  token1_is_usdc : Bool
  snapshot_is_current : Bool
  initial_price_val : ℚ
  initial_amount0 : ℤ
  initial_amount1 : ℤ
  elapsed_days : Option ℚ
  rewards : List RewardEntry

/-- The body of the per-position loop (lines 632-903) for one position.

`sqrtFn` stands for `Decimal.sqrt` (used inside `calculate_il_percentage`).
`carried_percs` holds the values of the Python locals `perc_to_lower` /
`perc_to_upper` left over from an earlier iteration: those names are bound
only inside the guarded IL block (lines 833-843) yet read unconditionally
when the report entry is assembled (lines 887-888), so when the IL block did
not run in this iteration the code reuses the stale pair — and if no earlier
iteration bound it, Python raises `NameError`, modelled as `.error`.  The
result carries the (possibly skipped) report entry and the updated pair. -/
def processPosition (sqrtFn : ℚ → ℚ) (carried_percs : Option (ℚ × ℚ)) (p : PosEval) :
    Except String (Option PosReport × Option (ℚ × ℚ)) :=
  match p.pool_read with
  | none => .ok (none, carried_percs)
  | some (current_sqrt_price, current_tick) =>
    let amounts := calculate_token_amounts (p.liquidity : ℚ) current_sqrt_price
      p.sqrt_price_lower p.sqrt_price_upper
    let current_price := tick_to_price current_tick (p.token0_decimals : ℤ) (p.token1_decimals : ℤ)
    let position_usd_value := position_value_calc amounts.1 amounts.2
      p.token0_decimals p.token1_decimals p.price0 p.price1 p.token0_is_usdc p.token1_is_usdc
    let position_status := if p.tickLower ≤ current_tick ∧ current_tick ≤ p.tickUpper
      then ("IN RANGE") else ("OUT OF RANGE")
    let price_lower := tick_to_price p.tickLower (p.token0_decimals : ℤ) (p.token1_decimals : ℤ)
    let price_upper := tick_to_price p.tickUpper (p.token0_decimals : ℤ) (p.token1_decimals : ℤ)
    let total_rewards_usd := total_rewards_usd_calc p.rewards
    let yp := yield_projection p.snapshot_is_current p.elapsed_days position_usd_value total_rewards_usd
    let annualized_apr := yp.1
    let days_active := yp.2.1
    let daily_projected := yp.2.2.1
    let annual_projected := yp.2.2.2
    -- line 772: the gate of the IL block (`initial_info` is non-empty here)
    let il_block : Option (ILData × ℚ × ℚ) :=
      if 0 < p.initial_price_val ∧ 0 < position_usd_value ∧ 0 < days_active then
        let initial_price := p.initial_price_val
        let il_perc_lower := calculate_il_percentage initial_price price_lower price_lower price_upper
          (sqrtFn initial_price) (sqrtFn price_lower) (sqrtFn price_lower) (sqrtFn price_upper)
        let il_perc_upper := calculate_il_percentage initial_price price_upper price_lower price_upper
          (sqrtFn initial_price) (sqrtFn price_upper) (sqrtFn price_lower) (sqrtFn price_upper)
        let initial_amount0_adj := (p.initial_amount0 : ℚ) / 10 ^ p.token0_decimals
        let initial_amount1_adj := (p.initial_amount1 : ℚ) / 10 ^ p.token1_decimals
        let hodl_val_at_lower := initial_amount0_adj * price_lower + initial_amount1_adj
        let il_usd_lower := il_perc_lower * hodl_val_at_lower
        let hodl_val_at_upper := initial_amount0_adj * price_upper + initial_amount1_adj
        let il_usd_upper := il_perc_upper * hodl_val_at_upper
        let days_to_breakeven_lower := days_to_breakeven_calc annualized_apr position_usd_value il_usd_lower
        let days_to_breakeven_upper := days_to_breakeven_calc annualized_apr position_usd_value il_usd_upper
        let fee_il_diff_lower := total_rewards_usd - il_usd_lower
        let fee_il_diff_upper := total_rewards_usd - il_usd_upper
        let il_perc_current := calculate_il_percentage initial_price current_price price_lower price_upper
          (sqrtFn initial_price) (sqrtFn current_price) (sqrtFn price_lower) (sqrtFn price_upper)
        let hodl_val_at_current := initial_amount0_adj * current_price + initial_amount1_adj
        let il_usd_current := il_perc_current * hodl_val_at_current
        let net_gain_loss := total_rewards_usd - il_usd_current
        let perc_to_lower := if 0 < current_price then (current_price - price_lower) / current_price * 100 else 0
        let perc_to_upper := if 0 < current_price then (price_upper - current_price) / current_price * 100 else 0
        some ({ il_usd_lower := il_usd_lower
                il_perc_lower := il_perc_lower
                breakeven_lower := breakeven_display days_to_breakeven_lower days_active
                fees_vs_il_lower := fee_il_diff_lower
                il_usd_upper := il_usd_upper
                il_perc_upper := il_perc_upper
                breakeven_upper := breakeven_display days_to_breakeven_upper days_active
                fees_vs_il_upper := fee_il_diff_upper
                il_usd_current := il_usd_current
                il_perc_current := il_perc_current
                net_gain_loss := net_gain_loss
                position_age := format_timedelta (some days_active) }, perc_to_lower, perc_to_upper)
      else none
    let price_range_percentage := if 0 < price_upper - price_lower
      then (current_price - price_lower) / (price_upper - price_lower) * 100 else 0
    let carried : Option (ℚ × ℚ) :=
      match il_block with
      | some (_, pl, pu) => some (pl, pu)
      | none => carried_percs
    match carried with
    | none => .error ("NameError: perc_to_lower is not defined")
    | some pc =>
      .ok (some { status := position_status
                  position_usd_value := position_usd_value
                  total_rewards_usd := total_rewards_usd
                  annualized_apr := annualized_apr
                  daily_projected_usd_earnings := daily_projected
                  annual_projected_usd_earnings := annual_projected
                  price_range_percentage := price_range_percentage
                  perc_to_lower := pc.1
                  perc_to_upper := pc.2
                  il_data := il_block.map (·.1) }, carried)

/-- The report loop over the active positions (lines 632-903): the body has no
surrounding `try`, so an uncaught exception in any iteration aborts the whole
report. -/
def find_and_display_positions_model (sqrtFn : ℚ → ℚ) :
    List PosEval → Option (ℚ × ℚ) → Except String (List PosReport)
  | [], _ => .ok []
  | p :: rest, carried =>
    match processPosition sqrtFn carried p with
    | .error e => .error e
    | .ok (entry, carried2) =>
      match find_and_display_positions_model sqrtFn rest carried2 with
      | .error e => .error e
      | .ok reports =>
        .ok (match entry with
             | some r => r :: reports
             | none => reports)

/-- One token slot of the wallet enumeration (lines 604-621): position NFT id
and its liquidity, `none` when reading the slot raised (silently skipped). -/
structure ChainPosition where
  token_id : ℕ
  liquidity : ℤ
deriving DecidableEq

/-- The enumeration loop body (lines 606-620): walk the given index order,
skip erroring slots without touching the counter, reset the counter on an
active position, and break out for good once five consecutive closed
positions have been seen. -/
def enumerate_scan (slots : ℕ → Option ChainPosition) :
    List ℕ → ℕ → List ChainPosition
  | [], _ => []
  | i :: rest, consecutive_closed =>
    match slots i with
    | none => enumerate_scan slots rest consecutive_closed
    | some p =>
      if 0 < p.liquidity then
        p :: enumerate_scan slots rest 0
      else if 5 ≤ consecutive_closed + 1 then []
      else enumerate_scan slots rest (consecutive_closed + 1)

/-- `active_positions` collection (lines 604-622): indices are scanned from
`balance - 1` down to `0`, then the collected list is reversed. -/
def enumerate_active_positions (balance : ℕ) (slots : ℕ → Option ChainPosition) :
    List ChainPosition :=
  (enumerate_scan slots ((List.range balance).reverse) 0).reverse

/-- Projection: the impermanent-loss data block shown for a position whose
report entry was produced (and `none` when the position was skipped or the
report aborted). -/
def ilShown (x : Except String (Option PosReport × Option (ℚ × ℚ))) :
    Option (Option ILData) :=
  match x with
  | .ok (some r, _) => some r.il_data
  | _ => none

/-- Projection: the net gain/loss figure a produced report entry displays in
its impermanent-loss block, `none` inside when that block is the empty dict. -/
def netShown (x : Except String (Option PosReport × Option (ℚ × ℚ))) :
    Option (Option ℚ) :=
  match x with
  | .ok (some r, _) => some (r.il_data.map (·.net_gain_loss))
  | _ => none

/-- A concrete position whose baseline snapshot was freshly captured in the
same report run (date suffixed " (Current)", so no elapsed history): pool read
succeeds, the position is in range and carries value and rewards. -/
def ctxFresh : PosEval where
  tickLower := -2
  tickUpper := 2
  liquidity := 1000000
  token0_decimals := 6
  token1_decimals := 6
  pool_read := some (1, 0)
  sqrt_price_lower := 9999 / 10000
  sqrt_price_upper := 10001 / 10000
  price0 := some 1
  price1 := some 1
  token0_is_usdc := false
  token1_is_usdc := true
  snapshot_is_current := true
  initial_price_val := 1
  initial_amount0 := 99
  initial_amount1 := 100
  elapsed_days := none
  rewards := [{ symbol := ("xSHADOW"), decimals := 18, amount := 10 * 10 ^ 18, price := some 1 }]

/-- The same position with a failing pool read (`get_pool_info` returned
`None`): the loop skips it with `continue`. -/
def ctxPoolFail : PosEval :=
  { ctxFresh with pool_read := none }

/-- A wallet layout for the enumeration loop: slot 0 holds an active position
(liquidity 7), slots 1..5 hold closed (zero-liquidity) positions.  Scanning
from the highest index downward meets the five closed slots first. -/
def buriedSlots : ℕ → Option ChainPosition :=
  fun i => if i = 0 then some { token_id := 100, liquidity := 7 }
           else some { token_id := 100 + i, liquidity := 0 }

theorem pyInt_of_nonneg {q : ℚ} (h : 0 ≤ q) : pyInt q = ⌊q⌋ := by
  unfold pyInt
  rw [if_neg (not_lt.mpr h)]

theorem pyInt_nonneg {q : ℚ} (h : 0 ≤ q) : 0 ≤ pyInt q := by
  rw [pyInt_of_nonneg h]
  exact Int.floor_nonneg.mpr h

/-- Claim C3: `calculate_token_amounts` on liquidity `L ≥ 0` and square-root
bounds `0 < sqrtLower < sqrtUpper` returns, floor-truncated, the three-case
decomposition with inclusive boundary comparisons; zero liquidity gives
`(0, 0)` and both amounts are always non-negative. -/
theorem calculate_token_amounts_spec (L cur sl su : ℚ)
    (hL : 0 ≤ L) (hsl : 0 < sl) (hlu : sl < su) :
    (cur ≤ sl →
      calculate_token_amounts L cur sl su = (⌊L * ((su - sl) / (sl * su))⌋, 0))
    ∧ (su ≤ cur →
      calculate_token_amounts L cur sl su = (0, ⌊L * (su - sl)⌋))
    ∧ (sl < cur → cur < su →
      calculate_token_amounts L cur sl su =
        (⌊L * ((su - cur) / (cur * su))⌋, ⌊L * (cur - sl)⌋))
    ∧ (L = 0 → calculate_token_amounts L cur sl su = (0, 0))
    ∧ (0 ≤ (calculate_token_amounts L cur sl su).1
        ∧ 0 ≤ (calculate_token_amounts L cur sl su).2) := by
  have hsu : 0 < su := lt_trans hsl hlu
  have hwidth : 0 ≤ su - sl := sub_nonneg.mpr (le_of_lt hlu)
  have hprod : 0 < sl * su := mul_pos hsl hsu
  refine ⟨?_, ?_, ?_, ?_, ?_⟩
  · intro h
    unfold calculate_token_amounts
    rw [if_pos h, pyInt_of_nonneg]
    exact mul_nonneg hL (div_nonneg hwidth (le_of_lt hprod))
  · intro h
    have h1 : ¬ cur ≤ sl := not_le.mpr (lt_of_lt_of_le hlu h)
    unfold calculate_token_amounts
    rw [if_neg h1, if_pos h, pyInt_of_nonneg]
    exact mul_nonneg hL hwidth
  · intro h1 h2
    unfold calculate_token_amounts
    rw [if_neg (not_le.mpr h1), if_neg (not_le.mpr h2),
        pyInt_of_nonneg, pyInt_of_nonneg]
    · exact mul_nonneg hL (sub_nonneg.mpr (le_of_lt h1))
    · exact mul_nonneg hL (div_nonneg (sub_nonneg.mpr (le_of_lt h2))
        (le_of_lt (mul_pos (lt_trans hsl h1) hsu)))
  · intro h
    subst h
    unfold calculate_token_amounts
    split_ifs <;> simp [pyInt]
  · unfold calculate_token_amounts
    split_ifs with h1 h2
    · constructor
      · exact pyInt_nonneg (mul_nonneg hL (div_nonneg hwidth (le_of_lt hprod)))
      · exact le_refl 0
    · constructor
      · exact le_refl 0
      · exact pyInt_nonneg (mul_nonneg hL hwidth)
    · push_neg at h1 h2
      constructor
      · exact pyInt_nonneg (mul_nonneg hL (div_nonneg (sub_nonneg.mpr (le_of_lt h2))
          (le_of_lt (mul_pos (lt_trans hsl h1) hsu))))
      · exact pyInt_nonneg (mul_nonneg hL (sub_nonneg.mpr (le_of_lt h1)))

theorem calculate_token_amounts_spec_witness :
    0 ≤ (calculate_token_amounts 10 (3/2) 1 2).1
    ∧ 0 ≤ (calculate_token_amounts 10 (3/2) 1 2).2 :=
  (calculate_token_amounts_spec 10 (3/2) 1 2 (by norm_num) (by norm_num) (by norm_num)).2.2.2.2

/-- Claim C4: `calculate_il_percentage` returns 0 when the target equals the
entry price, when the bounds are degenerate (`p_lower ≥ p_upper`), or when the
HODL value (entry amounts valued at the target price) is 0; otherwise it
returns `|lp_value / hodl_value - 1|` with entry and target amounts given by
the three-case decomposition at liquidity 1 over the price square roots. -/
theorem calculate_il_percentage_spec :
    (∀ pe pl pu se st sl su : ℚ,
      calculate_il_percentage pe pe pl pu se st sl su = 0)
    ∧ (∀ pe pt pl pu se st sl su : ℚ, pu ≤ pl →
      calculate_il_percentage pe pt pl pu se st sl su = 0)
    ∧ (∀ pe pt pl pu se st sl su : ℚ, pt ≠ pe → pl < pu →
      (il_amounts 1 pe pl pu se sl su).1 * pt + (il_amounts 1 pe pl pu se sl su).2 = 0 →
      calculate_il_percentage pe pt pl pu se st sl su = 0)
    ∧ (∀ pe pt pl pu se st sl su : ℚ, pt ≠ pe → pl < pu →
      (il_amounts 1 pe pl pu se sl su).1 * pt + (il_amounts 1 pe pl pu se sl su).2 ≠ 0 →
      calculate_il_percentage pe pt pl pu se st sl su =
        |((il_amounts 1 pt pl pu st sl su).1 * pt + (il_amounts 1 pt pl pu st sl su).2) /
         ((il_amounts 1 pe pl pu se sl su).1 * pt + (il_amounts 1 pe pl pu se sl su).2) - 1|) := by
  refine ⟨?_, ?_, ?_, ?_⟩
  · intro pe pl pu se st sl su
    unfold calculate_il_percentage
    rw [if_pos (Or.inl rfl)]
  · intro pe pt pl pu se st sl su h
    unfold calculate_il_percentage
    rw [if_pos (Or.inr h)]
  · intro pe pt pl pu se st sl su h1 h2 h3
    unfold calculate_il_percentage
    rw [if_neg (by push_neg; exact ⟨h1, lt_of_not_le fun hc => absurd h2 (not_lt.mpr hc)⟩)]
    simp only []
    rw [if_pos h3]
  · intro pe pt pl pu se st sl su h1 h2 h3
    unfold calculate_il_percentage
    rw [if_neg (by push_neg; exact ⟨h1, lt_of_not_le fun hc => absurd h2 (not_lt.mpr hc)⟩)]
    simp only []
    rw [if_neg h3]

theorem calculate_il_percentage_spec_witness :
    calculate_il_percentage 2 3 4 1 1 1 2 1 = 0 :=
  calculate_il_percentage_spec.2.1 2 3 4 1 1 1 2 1 (by norm_num)

/-- Claim C5: the annualized APR is 0 for a freshly captured "current"
baseline, an unparsable baseline date, a non-positive position value or
non-positive elapsed days; otherwise APR, annual and daily projected earnings
follow `(rewards / value) / (days / 365) * 100`, `value * APR / 100` and
`annual / 365`; in particular value 1000, rewards 10, days 10 give APR 36.5. -/
theorem yield_projection_spec :
    (∀ (d : Option ℚ) (v r : ℚ), yield_projection true d v r = (0, 0, 0, 0))
    ∧ (∀ v r : ℚ, yield_projection false none v r = (0, 0, 0, 0))
    ∧ (∀ d v r : ℚ, v ≤ 0 → (yield_projection false (some d) v r).1 = 0)
    ∧ (∀ d v r : ℚ, d ≤ 0 → (yield_projection false (some d) v r).1 = 0)
    ∧ (∀ d v r : ℚ, 0 < v → 0 < d →
        yield_projection false (some d) v r =
          ((r / v) / (d / 365) * 100, d,
           v * ((r / v) / (d / 365) * 100 / 100) / 365,
           v * ((r / v) / (d / 365) * 100 / 100)))
    ∧ (yield_projection false (some 10) 1000 10).1 = 73 / 2 := by
  refine ⟨?_, ?_, ?_, ?_, ?_, ?_⟩
  · intro d v r
    rfl
  · intro v r
    rfl
  · intro d v r h
    have hc : ¬ (0 < v ∧ 0 < d) := fun hc => absurd hc.1 (not_lt.mpr h)
    simp [yield_projection, hc]
  · intro d v r h
    have hc : ¬ (0 < v ∧ 0 < d) := fun hc => absurd hc.2 (not_lt.mpr h)
    simp [yield_projection, hc]
  · intro d v r hv hd
    have hc : 0 < v ∧ 0 < d := ⟨hv, hd⟩
    simp [yield_projection, hc]
  · norm_num [yield_projection]

theorem yield_projection_spec_witness :
    yield_projection false (some 10) 1000 10 = (73 / 2, 10, 1, 365) := by
  rw [yield_projection_spec.2.2.2.2.1 10 1000 10 (by norm_num) (by norm_num)]
  norm_num

set_option maxHeartbeats 1000000 in
theorem duration_components_ne_nil {tm : ℕ} (h : tm ≠ 0) :
    duration_components tm ≠ [] := by
  unfold duration_components
  intro hc
  simp only [List.append_eq_nil, ite_eq_right_iff] at hc
  obtain ⟨⟨⟨⟨⟨h1, h2⟩, h3⟩, h4⟩, h5⟩, h6⟩ := hc
  have n1 : ¬ 0 < tm / (365 * 24 * 60) := fun hp => by simpa using h1 hp
  have n2 : ¬ 0 < tm % (365 * 24 * 60) / (30 * 24 * 60) := fun hp => by simpa using h2 hp
  have n3 : ¬ 0 < tm % (365 * 24 * 60) % (30 * 24 * 60) / (7 * 24 * 60) :=
    fun hp => by simpa using h3 hp
  have n4 : ¬ 0 < tm % (365 * 24 * 60) % (30 * 24 * 60) % (7 * 24 * 60) / (24 * 60) :=
    fun hp => by simpa using h4 hp
  have n5 : ¬ 0 < tm % (365 * 24 * 60) % (30 * 24 * 60) % (7 * 24 * 60) % (24 * 60) / 60 :=
    fun hp => by simpa using h5 hp
  have n6 : ¬ 0 < tm % (365 * 24 * 60) % (30 * 24 * 60) % (7 * 24 * 60) % (24 * 60) % 60 :=
    fun hp => by simpa using h6 hp
  omega

/-- Claim C9: `format_timedelta` maps an absent (or non-finite) value to
"N/A", a negative value to "Met", a value truncating to zero whole minutes to
"<1m", and otherwise space-joins at most the three most significant non-zero
components of the greedy y/mo/w/d/h/m decomposition of the truncated minute
count; in particular 0 ↦ "<1m", −1 ↦ "Met", and 400 days ↦ "1y 1mo 5d"
(three components via the 365 d / 30 d / 7 d thresholds). -/
theorem format_timedelta_spec :
    format_timedelta none = "N/A"
    ∧ format_timedelta (some (-1)) = "Met"
    ∧ format_timedelta (some 0) = "<1m"
    ∧ (∀ d : ℚ, d < 0 → format_timedelta (some d) = "Met")
    ∧ (∀ d : ℚ, 0 ≤ d → pyInt (d * 24 * 60) = 0 → format_timedelta (some d) = "<1m")
    ∧ (∀ d : ℚ, 0 ≤ d → (pyInt (d * 24 * 60)).toNat ≠ 0 →
        format_timedelta (some d) =
          String.intercalate (" ") ((duration_components (pyInt (d * 24 * 60)).toNat).take 3))
    ∧ (∀ tm : ℕ, ((duration_components tm).take 3).length ≤ 3)
    ∧ format_timedelta (some 400) = "1y 1mo 5d" := by
  refine ⟨rfl, ?_, ?_, ?_, ?_, ?_, ?_, ?_⟩
  · simp only [format_timedelta]
    norm_num
  · simp only [format_timedelta]
    norm_num [pyInt]
  · intro d hd
    simp only [format_timedelta]
    rw [if_pos hd]
  · intro d hd h0
    simp only [format_timedelta]
    rw [if_neg (not_lt.mpr hd), if_pos (by rw [h0]; rfl)]
  · intro d hd h0
    simp only [format_timedelta]
    rw [if_neg (not_lt.mpr hd), if_neg h0]
    obtain ⟨x, xs, hx⟩ := List.exists_cons_of_ne_nil (duration_components_ne_nil h0)
    simp [hx]
  · intro tm
    rw [List.length_take]
    exact min_le_left _ _
  · simp only [format_timedelta]
    norm_num [pyInt]
    rfl

theorem format_timedelta_spec_witness :
    format_timedelta (some (-5)) = "Met" :=
  format_timedelta_spec.2.2.2.1 (-5) (by norm_num)

/-- Claim C7: for each range bound, `days_to_breakeven` equals
`il_usd / daily_rewards_usd` exactly when the daily reward and the projected
IL are both positive, and is 0 otherwise; a non-positive breakeven time always
displays exactly "N/A", and a positive one renders the total and remaining
time, with "(Met)" when the remaining time is negative; the degenerate inputs
(zero APR, zero daily reward, zero IL) are all total and yield 0 / "N/A". -/
theorem breakeven_spec :
    (∀ apr v il : ℚ, 0 < daily_rewards_usd_calc apr v → 0 < il →
      days_to_breakeven_calc apr v il = il / daily_rewards_usd_calc apr v)
    ∧ (∀ apr v il : ℚ, ¬ (0 < daily_rewards_usd_calc apr v ∧ 0 < il) →
      days_to_breakeven_calc apr v il = 0)
    ∧ (∀ dtb d : ℚ, dtb ≤ 0 → breakeven_display dtb d = "N/A")
    ∧ (∀ dtb d : ℚ, 0 < dtb → dtb - d < 0 →
      breakeven_display dtb d = format_timedelta (some dtb) ++ " (Met)")
    ∧ (∀ dtb d : ℚ, 0 < dtb → format_timedelta (some (dtb - d)) ≠ "Met" →
      breakeven_display dtb d =
        format_timedelta (some dtb) ++ " (" ++ format_timedelta (some (dtb - d)) ++ " left)")
    ∧ (∀ apr v : ℚ, days_to_breakeven_calc apr v 0 = 0)
    ∧ (∀ v il : ℚ, days_to_breakeven_calc 0 v il = 0) := by
  refine ⟨?_, ?_, ?_, ?_, ?_, ?_, ?_⟩
  · intro apr v il hdr hil
    have hapr : 0 < apr := by
      by_contra hc
      rw [daily_rewards_usd_calc, if_neg hc] at hdr
      exact absurd hdr (lt_irrefl 0)
    unfold days_to_breakeven_calc
    rw [if_pos hapr, if_pos hdr, if_pos hil]
  · intro apr v il hcon
    unfold days_to_breakeven_calc
    split_ifs with h1 h2 h3
    · exact absurd ⟨h2, h3⟩ hcon
    · rfl
    · rfl
    · rfl
  · intro dtb d h
    unfold breakeven_display
    rw [if_neg (not_lt.mpr h)]
  · intro dtb d h1 h2
    have hmet : format_timedelta (some (dtb - d)) = "Met" := by
      simp only [format_timedelta]
      rw [if_pos h2]
    unfold breakeven_display
    rw [if_pos h1]
    simp only [hmet, ne_eq, not_true_eq_false, if_false, ite_false]
  · intro dtb d h1 h2
    unfold breakeven_display
    rw [if_pos h1]
    simp only [h2, ne_eq, not_false_eq_true, if_true, ite_true]
  · intro apr v
    unfold days_to_breakeven_calc
    split_ifs with h1 h2 h3
    · exact absurd h3 (lt_irrefl 0)
    · rfl
    · rfl
    · rfl
  · intro v il
    unfold days_to_breakeven_calc
    rw [if_neg (lt_irrefl 0)]

theorem breakeven_spec_witness :
    breakeven_display 0 5 = "N/A" :=
  breakeven_spec.2.2.1 0 5 (by norm_num)

theorem total_rewards_foldl (rs : List RewardEntry) (acc : ℚ) :
    rs.foldl (fun a r => a + reward_credited r) acc = acc + (rs.map reward_credited).sum := by
  induction rs generalizing acc with
  | nil => simp
  | cons r rest ih =>
    simp only [List.foldl_cons, List.map_cons, List.sum_cons]
    rw [ih]
    ring

/-- Claim C8: a reward of the wrapped/locked variant (symbol "xSHADOW") with a
resolved (truthy) price is credited at exactly half its nominal USD value
`rawAmount / 10 ^ decimals * price`, identically in the per-token display row
and in the aggregate total (which sums the credited values); every other token
is credited at its full nominal value in both places. -/
theorem xshadow_half_credit_spec :
    (∀ (r : RewardEntry) (p : ℚ), r.price = some p → p ≠ 0 →
      reward_usd_value r = ((r.amount : ℚ) / 10 ^ r.decimals) * p
      ∧ (r.symbol = "xSHADOW" →
          reward_credited r = (((r.amount : ℚ) / 10 ^ r.decimals) * p) / 2)
      ∧ (r.symbol ≠ "xSHADOW" →
          reward_credited r = ((r.amount : ℚ) / 10 ^ r.decimals) * p))
    ∧ (∀ rs : List RewardEntry, total_rewards_usd_calc rs = (rs.map reward_credited).sum)
    ∧ (∀ rs : List RewardEntry,
        rewards_display rs = rs.map fun r => (r.symbol, reward_credited r)) := by
  refine ⟨?_, ?_, fun _ => rfl⟩
  · intro r p hp hp0
    have husd : reward_usd_value r = ((r.amount : ℚ) / 10 ^ r.decimals) * p := by
      unfold reward_usd_value
      rw [hp]
      simp only [if_neg hp0]
    refine ⟨husd, ?_, ?_⟩
    · intro hs
      unfold reward_credited
      rw [if_pos hs, husd]
    · intro hs
      unfold reward_credited
      rw [if_neg hs, husd]
  · intro rs
    unfold total_rewards_usd_calc
    rw [total_rewards_foldl]
    ring

theorem xshadow_half_credit_spec_witness :
    reward_credited { symbol := ("xSHADOW"), decimals := 18, amount := 2 * 10 ^ 18, price := some 4 } = 4 := by
  have h := (xshadow_half_credit_spec.1
    { symbol := ("xSHADOW"), decimals := 18, amount := 2 * 10 ^ 18, price := some 4 }
    4 rfl (by norm_num)).2.1 rfl
  rw [h]
  norm_num

/-- Claim C10: the wallet scan walks indices from highest to lowest and stops
for good after five consecutive zero-liquidity positions, so an active
position buried behind five closed ones in scan order is dropped from the
report and from the active-position count: with six slots whose lowest index
holds liquidity 7 behind five closed slots, the scan returns nothing, while
the same layout with only four closed slots ahead does surface the position. -/
theorem enumerate_early_stop_drops_active :
    buriedSlots 0 = some { token_id := 100, liquidity := 7 }
    ∧ (0 : ℤ) < 7
    ∧ enumerate_active_positions 6 buriedSlots = []
    ∧ (enumerate_active_positions 6 buriedSlots).length = 0
    ∧ enumerate_active_positions 5 buriedSlots = [{ token_id := 100, liquidity := 7 }] := by
  refine ⟨rfl, by norm_num, ?_, ?_, ?_⟩ <;> rfl

/-- Claim C1 (divergence witness): `tick_to_price` is exact at tick 0, but its
base constant is `Decimal(1.0001)`, i.e. the IEEE-754 double nearest
`1.0001` — `round(1.0001 * 2 ^ 52) / 2 ^ 52`, which is strictly below the
decimal number 1.0001 — so at the tick-domain edge 887272 the computed price
falls short of the true `1.0001 ^ 887272` by more than one part in `10 ^ 12`
(the true relative shortfall is about `9.77 * 10 ^ (-12)`): the result agrees
with `1.0001 ^ tick` to only about 11 significant digits, not the at least 50
the specification requires.  (The code rounds every `Decimal` operation to 50
significant digits, a relative perturbation below `10 ^ (-48)` that cannot
close a `10 ^ (-12)` gap, so the statement about the exact-arithmetic value
carries over to the executed computation.) -/
theorem tick_to_price_float_seed_gap :
    tick_to_price 0 8 8 = 1
    ∧ decimalFloat_1_0001 = (round ((10001 / 10000 : ℚ) * 2 ^ 52) : ℤ) / 2 ^ 52
    ∧ tick_to_price 887272 8 8 < (10001 / 10000 : ℚ) ^ (887272 : ℕ) * (1 - 1 / 10 ^ 12) := by
  refine ⟨by norm_num [tick_to_price], ?_, ?_⟩
  · rw [round_eq]
    rw [show ⌊(10001 / 10000 : ℚ) * 2 ^ 52 + 1 / 2⌋ = 4504049987333233 by
      rw [Int.floor_eq_iff]; norm_num]
    norm_num [decimalFloat_1_0001]
  · set d : ℚ := 496 / 45040499873332330496 with hd
    have hd_nonneg : (0 : ℚ) ≤ 1 - d := by norm_num [hd]
    have hBern : 1 + (887272 : ℚ) * d ≤ (1 + d) ^ 887272 := by
      have h := one_add_mul_le_pow (a := d) (by norm_num [hd]) 887272
      have hc : ((887272 : ℕ) : ℚ) = (887272 : ℚ) := by norm_num
      rw [hc] at h
      exact h
    have hmul : (1 - d) ^ 887272 * (1 + (887272 : ℚ) * d) ≤ 1 := by
      calc (1 - d) ^ 887272 * (1 + (887272 : ℚ) * d)
          ≤ (1 - d) ^ 887272 * (1 + d) ^ 887272 :=
            mul_le_mul_of_nonneg_left hBern (pow_nonneg hd_nonneg _)
        _ = ((1 - d) * (1 + d)) ^ 887272 := (mul_pow _ _ _).symm
        _ = (1 - d ^ 2) ^ 887272 := by rw [show (1 - d) * (1 + d) = 1 - d ^ 2 by ring]
        _ ≤ 1 := pow_le_one₀ (by norm_num [hd]) (by norm_num [hd])
    have hfrac : (1 - d) ^ 887272 ≤ 1 / (1 + (887272 : ℚ) * d) := by
      rw [le_div_iff₀ (by norm_num [hd] : (0 : ℚ) < 1 + (887272 : ℚ) * d)]
      exact hmul
    have hlt : (1 / (1 + (887272 : ℚ) * d) : ℚ) < 1 - 1 / 10 ^ 12 := by
      rw [hd]
      norm_num
    have hpow : (1 - d) ^ 887272 < 1 - 1 / 10 ^ 12 := lt_of_le_of_lt hfrac hlt
    have htp : tick_to_price 887272 8 8 = decimalFloat_1_0001 ^ (887272 : ℕ) := by
      unfold tick_to_price
      rw [show ((887272 : ℤ)) = ((887272 : ℕ) : ℤ) from rfl, zpow_natCast]
      norm_num
    have hsplit : decimalFloat_1_0001 = (10001 / 10000 : ℚ) * (1 - d) := by
      norm_num [decimalFloat_1_0001, hd]
    calc tick_to_price 887272 8 8
        = ((10001 / 10000 : ℚ) * (1 - d)) ^ 887272 := by rw [htp, hsplit]
      _ = (10001 / 10000 : ℚ) ^ 887272 * (1 - d) ^ 887272 := mul_pow _ _ _
      _ < (10001 / 10000 : ℚ) ^ 887272 * (1 - 1 / 10 ^ 12) :=
          mul_lt_mul_of_pos_left hpow (pow_pos (by norm_num) _)

/-- Claim C2 (divergence witness): the per-position loop is not
exception-safe.  `perc_to_lower` / `perc_to_upper` are bound only inside the
conditional IL block, yet read unconditionally when the report entry is
assembled, so a wallet whose first reported position carries no IL data (here:
a freshly captured baseline, hence zero elapsed days and a skipped IL block)
makes the whole report raise `NameError` instead of degrading that one
position — while a position whose pool read fails is indeed skipped
gracefully. -/
theorem find_positions_model_aborts :
    find_and_display_positions_model (fun _ => 0) [ctxFresh] none =
      .error ("NameError: perc_to_lower is not defined")
    ∧ find_and_display_positions_model (fun _ => 0) [ctxPoolFail] none = .ok [] := by
  constructor
  · norm_num [find_and_display_positions_model, processPosition, ctxFresh,
      calculate_token_amounts, position_value_calc, priceTruthy, pyInt,
      yield_projection, total_rewards_usd_calc, reward_credited, reward_usd_value]
  · norm_num [find_and_display_positions_model, processPosition, ctxPoolFail, ctxFresh]

/-- Claim C6 (counterexample): for a position whose baseline snapshot was
freshly captured in the same report (entry price = current price, zero elapsed
time) the produced report entry carries the EMPTY impermanent-loss block — no
net gain/loss figure at all — even though the position has 5 USD of rewards,
contradicting the claim that IL at the current price (0) and a net gain/loss
equal to the rewards (5) are shown.  (The stale carried pair `(0, 0)` stands
for percentage values bound by an earlier loop iteration; with no earlier
binding the report aborts instead, see the claim about batch safety.) -/
theorem fresh_snapshot_reports_no_il :
    netShown (processPosition (fun _ => 0) (some (0, 0)) ctxFresh) = some none
    ∧ total_rewards_usd_calc ctxFresh.rewards = 5 := by
  constructor
  · norm_num [netShown, processPosition, ctxFresh,
      calculate_token_amounts, position_value_calc, priceTruthy, pyInt,
      yield_projection, total_rewards_usd_calc, reward_credited, reward_usd_value]
  · norm_num [ctxFresh, total_rewards_usd_calc, reward_credited, reward_usd_value]

/-- Claim C6 (amended): a position whose baseline snapshot was freshly
captured in the same report never surfaces a non-empty impermanent-loss block:
the IL computation is gated on positive elapsed days, which a fresh " (Current)"
snapshot cannot have, so `impermanent_loss_data` stays the empty object (and
in particular no IL-at-current-price or net-gain/loss figure is reported). -/
theorem fresh_snapshot_il_data_empty (sqrtFn : ℚ → ℚ) (carried : Option (ℚ × ℚ))
    (p : PosEval) (hfresh : p.snapshot_is_current = true) :
    ∀ ild : ILData, ilShown (processPosition sqrtFn carried p) ≠ some (some ild) := by
  intro ild ho
  unfold processPosition at ho
  cases hp : p.pool_read with
  | none =>
    rw [hp] at ho
    simp [ilShown] at ho
  | some st =>
    obtain ⟨s, t⟩ := st
    rw [hp, hfresh] at ho
    simp only [yield_projection, if_true] at ho
    cases carried with
    | none =>
      simp [lt_self_iff_false, ilShown] at ho
    | some pc =>
      simp [lt_self_iff_false, ilShown] at ho

theorem fresh_snapshot_il_data_empty_witness :
    ilShown (processPosition (fun _ => 0) (some (0, 0)) ctxFresh) ≠
      some (some { il_usd_lower := 0, il_perc_lower := 0, breakeven_lower := ""
                   fees_vs_il_lower := 0, il_usd_upper := 0, il_perc_upper := 0
                   breakeven_upper := "", fees_vs_il_upper := 0, il_usd_current := 0
                   il_perc_current := 0, net_gain_loss := 0, position_age := "" }) :=
  fresh_snapshot_il_data_empty (fun _ => 0) (some (0, 0)) ctxFresh rfl _
